import Mathlib

/-!
Pull-request tracker: the diff engine, the snapshot store and the two webhook handlers

A shallow embedding of `main.go`.

* Go `int` fields (`PullRequestID`, `Vote`) are decoded from JSON and only ever
  compared, stored and printed: they are modelled as `Int`; no arithmetic is
  performed on them, so no overflow can occur.
* Go maps are modelled as functions into `Option` (a missing key is `none`).
* `fmt.Sprintf` with `%s` and `%d` verbs is string concatenation, `%d` printing
  the decimal form of the integer.
* A run-time panic (index out of range) is the value `none` of `comparePRs`.
* The chat client is an environment of answers (`SlackClient`); every call that
  a handler performs is recorded, in order, in the `calls` trace of its
  `Outcome`.
* A handler is modelled as one atomic step on the store (requests are
  processed one after the other).
-/

/-! ## Data model -/

/-- Reviewer entry of a webhook payload (`type Reviewers struct`). -/
structure Reviewers where
  Vote : Int
  DisplayName : String
  UniqueName : String
  IsRequired : Bool
deriving DecidableEq, Repr

/-- Tracked pull request (`type PR struct`). -/
structure PR where
  ID : Int
  IsDraft : Bool
  Status : String
  Reviewers : List Reviewers
  SlackMessageTS : String
  SlackChannel : String
  SentFirstMessage : Bool
deriving DecidableEq, Repr

/-- The table `votes` of the source, as the list of its key/value pairs. -/
def votes : List (Int × String) :=
  [(10, "approved"), (5, "approved (with suggestions)"), (0, "reset"), (-10, "rejected")]

/-- Go map read `votes[v]`: the stored label, and the zero value `""` for a
key that is not in the map. -/
def votesAt (v : Int) : String :=
  (votes.lookup v).getD ""

/-! ## Diff engine -/

/-- Inner loop of the count-changed branch: is there a previous reviewer with
the same `UniqueName` as `updatedReviewer`? -/
def foundIn (updatedReviewer : Reviewers) : List Reviewers → Bool
  | [] => false
  | prInStateReviewer :: rest =>
    if prInStateReviewer.UniqueName = updatedReviewer.UniqueName then true
    else foundIn updatedReviewer rest

/-- Outer loop of the count-changed branch: the first incoming reviewer that is
not found among the previous ones. -/
def firstNewReviewer (prInState : List Reviewers) : List Reviewers → Option Reviewers
  | [] => none
  | updatedReviewer :: rest =>
    if foundIn updatedReviewer prInState then firstNewReviewer prInState rest
    else some updatedReviewer

/-- Positional loop `for i, prInStateReviewer := range prInState.Reviewers`,
started at index `i` on the remaining previous reviewers. The read
`updatedPr.Reviewers[i]` panics (result `none`) when `i` is out of range. -/
def voteLoop (updated : List Reviewers) : Nat → List Reviewers → Option (String × String × Bool)
  | _, [] => some ("none", "", false)
  | i, prInStateReviewer :: rest =>
    match updated[i]? with
    | none => none
    | some updatedReviewer =>
      if prInStateReviewer.Vote ≠ updatedReviewer.Vote ∧ prInStateReviewer.IsRequired = false then
        some ("reviewer",
          "*" ++ updatedReviewer.DisplayName ++ "* has changed their review from *"
            ++ votesAt prInStateReviewer.Vote ++ "* to *" ++ votesAt updatedReviewer.Vote ++ "*",
          true)
      else if prInStateReviewer.Vote ≠ updatedReviewer.Vote then
        some ("reviewer",
          "A required reviewer - *" ++ updatedReviewer.DisplayName ++ "* has *"
            ++ votesAt updatedReviewer.Vote ++ "* your PR ",
          true)
      else voteLoop updated (i + 1) rest

/-- The function `comparePRs` of the source: `some (change, message, changed)`
when it returns, `none` when it panics. -/
def comparePRs (prInState updatedPr : PR) : Option (String × String × Bool) :=
  if prInState.Status ≠ updatedPr.Status then
    some ("status", "Status has changed to: *" ++ updatedPr.Status ++ "*", true)
  else if prInState.IsDraft ≠ updatedPr.IsDraft then
    some ("draft",
      if updatedPr.IsDraft then "PR has now been marked as a draft"
      else "PR has been unmarked as a draft",
      true)
  else
    match (if prInState.Reviewers.length ≠ updatedPr.Reviewers.length then
            firstNewReviewer prInState.Reviewers updatedPr.Reviewers else none) with
    | some updatedReviewer =>
      some ("reviewer",
        "*" ++ updatedReviewer.DisplayName ++ "* has *" ++ votesAt updatedReviewer.Vote
          ++ "* this PR",
        true)
    | none => voteLoop updatedPr.Reviewers 0 prInState.Reviewers

/-! ## Webhook payload and configuration -/

/-- Payload field `resource.repository.project`. -/
structure Project where
  Name : String
deriving DecidableEq, Repr

/-- Payload field `resource.repository`. -/
structure Repository where
  Project : Project
  Name : String
  WebURL : String
deriving DecidableEq, Repr

/-- Payload field `resource.createdBy`. -/
structure CreatedBy where
  DisplayName : String
  Email : String
deriving DecidableEq, Repr

/-- Payload field `resource`. -/
structure Resource where
  Repository : Repository
  PullRequestID : Int
  Status : String
  PrTitle : String
  CreatedBy : CreatedBy
  IsDraft : Bool
  Reviewers : List Reviewers
  URL : String
deriving DecidableEq, Repr

/-- Decoded request body (`type WebhookData struct`). -/
structure WebhookData where
  EventType : String
  Resource : Resource
deriving DecidableEq, Repr

/-- Channel of a configured project (`type ProjectInfo struct`). -/
structure ProjectInfo where
  ChannelId : String
deriving DecidableEq, Repr

/-- Loaded configuration (`type AutomaticPrMessages struct`): the Go map
`Projects` as a function, `none` for a project name that is not a key. -/
structure AutomaticPrMessages where
  Projects : String → Option ProjectInfo

/-- An incoming HTTP request: its method and the result of decoding its body
as JSON (`none` when `Decode` returns an error). -/
structure Request where
  Method : String
  Body : Option WebhookData

/-! ## Snapshot store -/

/-- The map `prs` of `PRStorage`; the mutex is not modelled, a handler being
one atomic step. -/
structure PRStorage where
  prs : Int → Option PR

/-- The store built in `main`: `make(map[int]PR)`. -/
def PRStorage.empty : PRStorage := ⟨fun _ => none⟩

/-- Method `Add`: `s.prs[pr.ID] = pr`. -/
def PRStorage.Add (s : PRStorage) (pr : PR) : PRStorage :=
  ⟨fun k => if k = pr.ID then some pr else s.prs k⟩

/-- Method `Remove`: `delete(s.prs, id)`. -/
def PRStorage.Remove (s : PRStorage) (id : Int) : PRStorage :=
  ⟨fun k => if k = id then none else s.prs k⟩

/-- Method `GetByID`: `pr, ok := s.prs[id]`, with `ok = false` as `none`. -/
def PRStorage.GetByID (s : PRStorage) (id : Int) : Option PR :=
  s.prs id

/-! ## Chat client -/

/-- A thread message as far as the source reads it: its `Timestamp`. -/
structure Message where
  Timestamp : String
deriving DecidableEq, Repr

/-- Answers of the chat platform to the four client methods the source calls.
`GetUserByEmail` gives the `ID` of the user, `none` when the returned user is
`nil`. `PostMessage channel text threadTs` gives the timestamp of the posted
message, `none` on an error. `GetConversationReplies channel ts` gives the
messages of the thread, `none` on an error. `DeleteMessage k channel ts` tells
whether the deletion succeeded; `k` counts the earlier `DeleteMessage` calls of
the same handler run, so that two calls with equal arguments may answer
differently. -/
structure SlackClient where
  GetUserByEmail : String → Option String
  PostMessage : String → String → String → Option String
  GetConversationReplies : String → String → Option (List Message)
  DeleteMessage : Nat → String → String → Bool

/-- One call to the chat client, with its arguments. -/
inductive SinkCall where
  | getUserByEmail (email : String)
  | postMessage (channelID message messageTs : String)
  | getConversationReplies (channelID parentTimestamp : String)
  | deleteMessage (channelID timestamp : String)
deriving DecidableEq, Repr

/-- Function `sendSlackMessage`: the timestamp of the posted message; `none`
stands for the `log.Fatalf` branch, which ends the process. -/
def sendSlackMessage (slackClient : SlackClient) (channelID message messageTs : String) :
    Option String :=
  slackClient.PostMessage channelID message messageTs

/-- Function `findSlackUser`: `(false, "")` when the user is `nil`, else
`(true, user.ID)`. -/
def findSlackUser (slackClient : SlackClient) (email : String) : Bool × String :=
  match slackClient.GetUserByEmail email with
  | none => (false, "")
  | some id => (true, id)

/-- Function `getThreadMessages`: the messages, `none` on an error. -/
def getThreadMessages (slackClient : SlackClient) (channelID parentTimestamp : String) :
    Option (List Message) :=
  slackClient.GetConversationReplies channelID parentTimestamp

/-- Function `deleteThreadMessages`, from the `k`-th deletion on: the calls it
performs and whether it returned `nil` (`true`) or the first error (`false`). -/
def deleteThreadMessagesFrom (slackClient : SlackClient) (channelID : String) :
    Nat → List Message → List SinkCall × Bool
  | _, [] => ([], true)
  | k, msg :: rest =>
    if slackClient.DeleteMessage k channelID msg.Timestamp then
      let r := deleteThreadMessagesFrom slackClient channelID (k + 1) rest
      (SinkCall.deleteMessage channelID msg.Timestamp :: r.1, r.2)
    else ([SinkCall.deleteMessage channelID msg.Timestamp], false)

/-- Function `deleteThreadMessages`. -/
def deleteThreadMessages (slackClient : SlackClient) (channelID : String)
    (messages : List Message) : List SinkCall × Bool :=
  deleteThreadMessagesFrom slackClient channelID 0 messages

/-! ## Event router -/

/-- How a handler run ended: it returned, the process was stopped by
`log.Fatalf`, or the handler panicked. -/
inductive Exit where
  | returned
  | fatal
  | panicked
deriving DecidableEq, Repr

/-- Result of a handler run: the store afterwards, the HTTP status code
written, the client calls made (in order), and how the run ended. -/
structure Outcome where
  storage : PRStorage
  code : Nat
  calls : List SinkCall
  exit : Exit

/-- Function `handleAzureDevopsWebhookCreated`. -/
def handleAzureDevopsWebhookCreated (configuration : AutomaticPrMessages)
    (slackClient : SlackClient) (storage : PRStorage) (r : Request) : Outcome :=
  if r.Method ≠ "POST" then ⟨storage, 405, [], Exit.returned⟩
  else match r.Body with
  | none => ⟨storage, 400, [], Exit.returned⟩
  | some data =>
    if data.EventType ≠ "git.pullrequest.created" then ⟨storage, 400, [], Exit.returned⟩
    else match storage.GetByID data.Resource.PullRequestID with
    | some _ => ⟨storage, 200, [], Exit.returned⟩
    | none =>
      match configuration.Projects data.Resource.Repository.Project.Name with
      | none => ⟨storage, 200, [], Exit.returned⟩
      | some projectConfiguration =>
        if data.Resource.IsDraft then
          ⟨storage.Add
            { ID := data.Resource.PullRequestID
              Status := data.Resource.Status
              IsDraft := data.Resource.IsDraft
              Reviewers := data.Resource.Reviewers
              SlackMessageTS := ""
              SlackChannel := projectConfiguration.ChannelId
              SentFirstMessage := false },
            200, [], Exit.returned⟩
        else
          let fu := findSlackUser slackClient data.Resource.CreatedBy.Email
          let user := if fu.1 = false then data.Resource.CreatedBy.DisplayName else fu.2
          let message := "<@" ++ user ++ "> has created a new PR - <"
            ++ data.Resource.Repository.WebURL ++ "/pullrequest/"
            ++ toString data.Resource.PullRequestID ++ "|*" ++ data.Resource.PrTitle
            ++ "*> for *" ++ data.Resource.Repository.Name ++ "*\x27"
          let calls := [SinkCall.getUserByEmail data.Resource.CreatedBy.Email,
            SinkCall.postMessage projectConfiguration.ChannelId message ""]
          match sendSlackMessage slackClient projectConfiguration.ChannelId message "" with
          | none => ⟨storage, 200, calls, Exit.fatal⟩
          | some ts =>
            ⟨storage.Add
              { ID := data.Resource.PullRequestID
                Status := data.Resource.Status
                IsDraft := data.Resource.IsDraft
                Reviewers := data.Resource.Reviewers
                SlackMessageTS := ts
                SlackChannel := projectConfiguration.ChannelId
                SentFirstMessage := true },
              200, calls, Exit.returned⟩

/-- Function `handleAzureDevopsWebhookUpdates`. -/
def handleAzureDevopsWebhookUpdates (slackClient : SlackClient) (storage : PRStorage)
    (r : Request) : Outcome :=
  if r.Method ≠ "POST" then ⟨storage, 405, [], Exit.returned⟩
  else match r.Body with
  | none => ⟨storage, 400, [], Exit.returned⟩
  | some data =>
    if data.EventType ≠ "git.pullrequest.updated" then ⟨storage, 400, [], Exit.returned⟩
    else match storage.GetByID data.Resource.PullRequestID with
    | none => ⟨storage, 200, [], Exit.returned⟩
    | some pr =>
      let updatedPr : PR :=
        { ID := 0
          Status := data.Resource.Status
          IsDraft := data.Resource.IsDraft
          Reviewers := data.Resource.Reviewers
          SlackMessageTS := ""
          SlackChannel := ""
          SentFirstMessage := false }
      match comparePRs pr updatedPr with
      | none => ⟨storage, 200, [], Exit.panicked⟩
      | some (item, info, changed) =>
        if changed = false then ⟨storage, 200, [], Exit.returned⟩
        else if item = "draft" ∧ pr.SentFirstMessage = false then
          let id := (findSlackUser slackClient data.Resource.CreatedBy.Email).2
          let message := "<@" ++ id
            ++ "> has moved their PR from draft, and is ready to be reviewed - <"
            ++ data.Resource.Repository.WebURL ++ "/pullrequest/"
            ++ toString data.Resource.PullRequestID ++ "|*" ++ data.Resource.PrTitle
            ++ "*> for *" ++ data.Resource.Repository.Name ++ "*\x27"
          let calls := [SinkCall.getUserByEmail data.Resource.CreatedBy.Email,
            SinkCall.postMessage pr.SlackChannel message ""]
          match sendSlackMessage slackClient pr.SlackChannel message "" with
          | none => ⟨storage, 200, calls, Exit.fatal⟩
          | some ts =>
            ⟨storage.Add { pr with SlackMessageTS := ts, SentFirstMessage := true },
              200, calls, Exit.returned⟩
        else
          let sent := [SinkCall.postMessage pr.SlackChannel info pr.SlackMessageTS]
          match sendSlackMessage slackClient pr.SlackChannel info pr.SlackMessageTS with
          | none => ⟨storage, 200, sent, Exit.fatal⟩
          | some _ =>
            if updatedPr.Status = "completed" then
              let listed := sent ++
                [SinkCall.getConversationReplies pr.SlackChannel pr.SlackMessageTS]
              match getThreadMessages slackClient pr.SlackChannel pr.SlackMessageTS with
              | none => ⟨storage, 200, listed, Exit.returned⟩
              | some threadMessages =>
                let d := deleteThreadMessages slackClient pr.SlackChannel threadMessages
                if d.2 = false then ⟨storage, 200, listed ++ d.1, Exit.returned⟩
                else ⟨storage.Remove pr.ID, 200, listed ++ d.1, Exit.returned⟩
            else
              ⟨storage.Add
                { pr with
                  Status := updatedPr.Status
                  IsDraft := updatedPr.IsDraft
                  Reviewers := updatedPr.Reviewers },
                200, sent, Exit.returned⟩

/-- The stores the running service can be in: the empty store of `main`, and
the store after any handler run from such a store. The configuration is the
one loaded at start-up. -/
inductive Reachable (configuration : AutomaticPrMessages) : PRStorage → Prop where
  | init : Reachable configuration PRStorage.empty
  | created (slackClient : SlackClient) (storage : PRStorage) (r : Request) :
      Reachable configuration storage →
      Reachable configuration
        (handleAzureDevopsWebhookCreated configuration slackClient storage r).storage
  | updates (slackClient : SlackClient) (storage : PRStorage) (r : Request) :
      Reachable configuration storage →
      Reachable configuration (handleAzureDevopsWebhookUpdates slackClient storage r).storage

/-- Text of an outgoing message call, `none` for the other client calls. -/
def SinkCall.sentText : SinkCall → Option String
  | SinkCall.postMessage _ message _ => some message
  | _ => none

/-- The messages sent (`PostMessage` calls) during a handler run. -/
def Outcome.sentMessages (o : Outcome) : List String :=
  o.calls.filterMap SinkCall.sentText

/-- Store predicate: an entry whose `SentFirstMessage` is `false` has the
empty string as `SlackMessageTS`. -/
def RootHandleInv (s : PRStorage) : Prop :=
  ∀ k pr, s.GetByID k = some pr → pr.SentFirstMessage = false → pr.SlackMessageTS = ""

/-- Store predicate: the entry stored under key `k` has `ID = k`. -/
def KeyedByID (s : PRStorage) : Prop :=
  ∀ k pr, s.GetByID k = some pr → pr.ID = k

/-! ## Concrete inputs -/

/-- Reviewer with vote `v`, display name `name`, unique name `uniq`. -/
def mkReviewer (v : Int) (name uniq : String) (req : Bool) : Reviewers :=
  { Vote := v, DisplayName := name, UniqueName := uniq, IsRequired := req }

/-- Snapshot with the given status, draft flag and reviewers; the other fields
are the zero values, as in the `updatedPr` the update handler builds. -/
def mkSnapshot (status : String) (draft : Bool) (reviewers : List Reviewers) : PR :=
  { ID := 0, IsDraft := draft, Status := status, Reviewers := reviewers,
    SlackMessageTS := "", SlackChannel := "", SentFirstMessage := false }

/-- Previous snapshot with reviewers Ann and Bob, both with vote 0. -/
def annBobReset : PR :=
  mkSnapshot "active" false [mkReviewer 0 "Ann" "ann@x" false, mkReviewer 0 "Bob" "bob@x" false]

/-- Incoming snapshot: Bob is gone, Ann now votes 10. -/
def annApproved : PR :=
  mkSnapshot "active" false [mkReviewer 10 "Ann" "ann@x" false]

/-- Incoming snapshot: Bob is gone, Ann still votes 0. -/
def annReset : PR :=
  mkSnapshot "active" false [mkReviewer 0 "Ann" "ann@x" false]

/-- Previous snapshot: a draft with status "active". -/
def activeDraft : PR := mkSnapshot "active" true []

/-- Incoming snapshot: not a draft, status "completed". -/
def completedReady : PR := mkSnapshot "completed" false []

/-- Previous snapshot with three reviewers, the second one required. -/
def threeBefore : PR :=
  mkSnapshot "active" false
    [mkReviewer 0 "Ann" "ann@x" false, mkReviewer 0 "Bob" "bob@x" true,
      mkReviewer 0 "Cy" "cy@x" false]

/-- Incoming snapshot: the second and the third vote differ from `threeBefore`. -/
def threeAfter : PR :=
  mkSnapshot "active" false
    [mkReviewer 0 "Ann" "ann@x" false, mkReviewer 10 "Bob" "bob@x" true,
      mkReviewer (-10) "Cy" "cy@x" false]

/-- Previous snapshot without reviewers. -/
def noReviewers : PR := mkSnapshot "active" false []

/-- Incoming snapshot with one reviewer whose vote, 3, is not in `votes`. -/
def oddVote : PR := mkSnapshot "active" false [mkReviewer 3 "Ann" "ann@x" false]

/-- Configuration with the single project "Alpha", mapped to channel "C1". -/
def alphaConfig : AutomaticPrMessages :=
  ⟨fun name => if name = "Alpha" then some ⟨"C1"⟩ else none⟩

/-- Chat client whose calls all succeed and that knows the user of
"ann@corp.example". -/
def okClient : SlackClient :=
  { GetUserByEmail := fun email => if email = "ann@corp.example" then some "U123" else none
    PostMessage := fun _ _ _ => some "1700000000.000100"
    GetConversationReplies := fun _ _ => some [⟨"1700000000.000200"⟩]
    DeleteMessage := fun _ _ _ => true }

/-- Chat client whose calls all succeed, except that the lookup by email
finds no user. -/
def noUserClient : SlackClient :=
  { GetUserByEmail := fun _ => none
    PostMessage := fun _ _ _ => some "1700000000.000100"
    GetConversationReplies := fun _ _ => some [⟨"1700000000.000200"⟩]
    DeleteMessage := fun _ _ _ => true }

/-- A POST request for a pull request of project "Alpha", created by Ann Lee. -/
def mkRequest (eventType : String) (id : Int) (status : String) (draft : Bool)
    (reviewers : List Reviewers) : Request :=
  { Method := "POST"
    Body := some
      { EventType := eventType
        Resource :=
          { Repository :=
              { Project := ⟨"Alpha"⟩, Name := "repo", WebURL := "https://dev.example/Alpha/_git/repo" }
            PullRequestID := id
            Status := status
            PrTitle := "Fix login"
            CreatedBy := { DisplayName := "Ann Lee", Email := "ann@corp.example" }
            IsDraft := draft
            Reviewers := reviewers
            URL := "" } } }

/-- The store after the create-notification of the draft pull request 7 with
status "active", from the empty store. -/
def draftTracked : PRStorage :=
  (handleAzureDevopsWebhookCreated alphaConfig okClient PRStorage.empty
    (mkRequest "git.pullrequest.created" 7 "active" true [])).storage

/-- The store after the create-notification of the pull request 7, not a
draft, with status "active", from the empty store. -/
def activeTracked : PRStorage :=
  (handleAzureDevopsWebhookCreated alphaConfig okClient PRStorage.empty
    (mkRequest "git.pullrequest.created" 7 "active" false [])).storage

/-- Update-notification for pull request 7: status "active", not a draft. -/
def readyUpdate : Request := mkRequest "git.pullrequest.updated" 7 "active" false []

/-- Update-notification for pull request 7: still a draft, status "abandoned". -/
def draftAbandonedUpdate : Request := mkRequest "git.pullrequest.updated" 7 "abandoned" true []

/-- Update-notification for pull request 7: status "completed". -/
def completedUpdate : Request := mkRequest "git.pullrequest.updated" 7 "completed" false []

/-! ## Diff engine: lemmas -/

theorem voteLoop_first_mismatch (updated : List Reviewers) :
    ∀ (rest : List Reviewers) (i k : Nat) (a b : Reviewers),
      rest[k]? = some a → updated[i + k]? = some b → a.Vote ≠ b.Vote →
      (∀ j, j < k → ∀ a' b', rest[j]? = some a' → updated[i + j]? = some b' →
        a'.Vote = b'.Vote) →
      voteLoop updated i rest =
        some ("reviewer",
          (if a.IsRequired = false then
            "*" ++ b.DisplayName ++ "* has changed their review from *"
              ++ votesAt a.Vote ++ "* to *" ++ votesAt b.Vote ++ "*"
          else
            "A required reviewer - *" ++ b.DisplayName ++ "* has *"
              ++ votesAt b.Vote ++ "* your PR "),
          true) := by
  intro rest
  induction rest with
  | nil => intro i k a b ha; simp at ha
  | cons p ps ih =>
    intro i k a b ha hb hne hlt
    cases k with
    | zero =>
      simp at ha hb
      subst ha
      simp only [voteLoop, hb]
      by_cases hr : p.IsRequired = false
      · simp [hne, hr]
      · simp [hne, hr]
    | succ k =>
      have hlen : i < updated.length := by
        have := (List.getElem?_eq_some.mp hb).1
        omega
      obtain ⟨b0, hb0⟩ : ∃ b0, updated[i]? = some b0 :=
        ⟨updated[i], List.getElem?_eq_getElem hlen⟩
      have h0 : p.Vote = b0.Vote := hlt 0 (Nat.succ_pos k) p b0 (by simp) (by simpa using hb0)
      simp only [voteLoop, hb0]
      simp only [h0, ne_eq, not_true_eq_false, false_and, if_false]
      apply ih (i + 1) k a b
      · simpa using ha
      · rw [← hb]; congr 1; omega
      · exact hne
      · intro j hj a' b' ha' hb'
        apply hlt (j + 1) (by omega) a' b'
        · simpa using ha'
        · rw [← hb']; congr 1; omega

theorem voteLoop_no_mismatch (updated : List Reviewers) :
    ∀ (rest : List Reviewers) (i : Nat), i + rest.length ≤ updated.length →
      (∀ j a b, rest[j]? = some a → updated[i + j]? = some b → a.Vote = b.Vote) →
      voteLoop updated i rest = some ("none", "", false) := by
  intro rest
  induction rest with
  | nil => intro i _ _; rfl
  | cons p ps ih =>
    intro i hlen heq
    have hi : i < updated.length := by simp at hlen; omega
    have hb0 : updated[i]? = some updated[i] := List.getElem?_eq_getElem hi
    have h0 : p.Vote = (updated[i]).Vote := heq 0 p _ (by simp) hb0
    simp only [voteLoop, hb0]
    simp only [h0, ne_eq, not_true_eq_false, false_and, if_false]
    apply ih (i + 1)
    · simp at hlen; omega
    · intro j a b ha hb
      apply heq (j + 1) a b
      · simpa using ha
      · rw [← hb]; congr 1; omega

theorem voteLoop_self (l : List Reviewers) :
    voteLoop l 0 l = some ("none", "", false) :=
  voteLoop_no_mismatch l l 0 (by simp) (by
    intro j a b ha hb
    simp only [Nat.zero_add] at hb
    rw [ha] at hb
    injection hb with hb
    rw [hb])

theorem comparePRs_same_fields (p u : PR) (hs : p.Status = u.Status)
    (hd : p.IsDraft = u.IsDraft) (hr : p.Reviewers = u.Reviewers) :
    comparePRs p u = some ("none", "", false) := by
  simp only [comparePRs, hs, hd, hr, ne_eq, not_true_eq_false, if_false]
  exact voteLoop_self u.Reviewers

theorem foundIn_iff (r : Reviewers) (prev : List Reviewers) :
    foundIn r prev = true ↔ ∃ q ∈ prev, q.UniqueName = r.UniqueName := by
  induction prev with
  | nil => simp [foundIn]
  | cons q qs ih =>
    by_cases h : q.UniqueName = r.UniqueName
    · simp [foundIn, h]
    · simp [foundIn, h, ih]

theorem firstNewReviewer_none (prev inc : List Reviewers)
    (h : ∀ r ∈ inc, ∃ q ∈ prev, q.UniqueName = r.UniqueName) :
    firstNewReviewer prev inc = none := by
  induction inc with
  | nil => rfl
  | cons r rs ih =>
    have hr : foundIn r prev = true := (foundIn_iff r prev).mpr (h r (by simp))
    simp only [firstNewReviewer, hr, if_true]
    exact ih (fun x hx => h x (by simp [hx]))

/-- Without a status change, a draft change or a new identity, `comparePRs` is
the positional loop, whether the reviewer counts agree or not. -/
theorem comparePRs_no_new_identity (p u : PR) (hs : p.Status = u.Status)
    (hd : p.IsDraft = u.IsDraft)
    (h : ∀ r ∈ u.Reviewers, ∃ q ∈ p.Reviewers, q.UniqueName = r.UniqueName) :
    comparePRs p u = voteLoop u.Reviewers 0 p.Reviewers := by
  simp only [comparePRs, hs, hd, ne_eq, not_true_eq_false, if_false,
    firstNewReviewer_none p.Reviewers u.Reviewers h, ite_self]

/-! ## Diff engine: claims -/

/-- C2: when the stored and the incoming status differ, `comparePRs` returns
exactly the status result, with the incoming status verbatim in the message,
whatever the draft flags and the reviewers are; the kind is never "draft". -/
theorem comparePRs_status_first (p u : PR) (h : p.Status ≠ u.Status) :
    comparePRs p u
        = some ("status", "Status has changed to: *" ++ u.Status ++ "*", true)
      ∧ ∀ m c, comparePRs p u ≠ some ("draft", m, c) := by
  have h1 : comparePRs p u
      = some ("status", "Status has changed to: *" ++ u.Status ++ "*", true) := by
    simp [comparePRs, h]
  refine ⟨h1, ?_⟩
  intro m c hc
  rw [h1] at hc
  simp at hc

theorem comparePRs_status_first_witness :
    activeDraft.Status ≠ completedReady.Status
      ∧ activeDraft.IsDraft ≠ completedReady.IsDraft
      ∧ comparePRs activeDraft completedReady
        = some ("status", "Status has changed to: *" ++ completedReady.Status ++ "*", true) :=
  ⟨by decide, by decide, (comparePRs_status_first activeDraft completedReady (by decide)).1⟩

/-- C6: with equal status, equal draft flag and reviewer lists of equal
length, `comparePRs` reports the first position at which the votes differ, and
only that one: the "changed their review" wording when the previous reviewer
at that position is not required, the "required reviewer" wording when it is;
without such a position the result is `("none", "", false)`. -/
theorem comparePRs_first_vote_mismatch (p u : PR) (hs : p.Status = u.Status)
    (hd : p.IsDraft = u.IsDraft) (hl : p.Reviewers.length = u.Reviewers.length) :
    (∀ (i : Nat) (a b : Reviewers),
        p.Reviewers[i]? = some a → u.Reviewers[i]? = some b → a.Vote ≠ b.Vote →
        (∀ (j : Nat), j < i → ∀ (a' b' : Reviewers),
          p.Reviewers[j]? = some a' → u.Reviewers[j]? = some b' →
          a'.Vote = b'.Vote) →
        comparePRs p u =
          some ("reviewer",
            (if a.IsRequired = false then
              "*" ++ b.DisplayName ++ "* has changed their review from *"
                ++ votesAt a.Vote ++ "* to *" ++ votesAt b.Vote ++ "*"
            else
              "A required reviewer - *" ++ b.DisplayName ++ "* has *"
                ++ votesAt b.Vote ++ "* your PR "),
            true))
      ∧ ((∀ (j : Nat) (a b : Reviewers),
          p.Reviewers[j]? = some a → u.Reviewers[j]? = some b → a.Vote = b.Vote) →
        comparePRs p u = some ("none", "", false)) := by
  have hc : comparePRs p u = voteLoop u.Reviewers 0 p.Reviewers := by
    simp [comparePRs, hs, hd, hl]
  constructor
  · intro i a b ha hb hne hlt
    rw [hc]
    apply voteLoop_first_mismatch u.Reviewers p.Reviewers 0 i a b ha
    · simpa using hb
    · exact hne
    · intro j hj a' b' ha' hb'
      exact hlt j hj a' b' ha' (by simpa using hb')
  · intro heq
    rw [hc]
    apply voteLoop_no_mismatch u.Reviewers p.Reviewers 0
    · simp [hl]
    · intro j a b ha hb
      exact heq j a b ha (by simpa using hb)

theorem comparePRs_first_vote_mismatch_witness :
    comparePRs threeBefore threeAfter
      = some ("reviewer", "A required reviewer - *Bob* has *approved* your PR ", true) :=
  (comparePRs_first_vote_mismatch threeBefore threeAfter rfl rfl rfl).1 1
    (mkReviewer 0 "Bob" "bob@x" true) (mkReviewer 10 "Bob" "bob@x" true) rfl rfl (by decide)
    (by
      intro j hj a' b' ha' hb'
      have hj0 : j = 0 := by omega
      subst hj0
      simp [threeBefore, threeAfter, mkSnapshot] at ha' hb'
      subst ha'
      subst hb'
      rfl)

/-- C8: the vote label is "approved" for 10, "approved (with suggestions)"
for 5, "reset" for 0, "rejected" for -10 and the empty string for every other
integer; `comparePRs` still returns its message, with the empty label, for a
reviewer whose vote is not in the table, both when that reviewer is the new
identity of the count rule and when it is the first vote mismatch. -/
theorem votesAt_total :
    votesAt 10 = "approved" ∧ votesAt 5 = "approved (with suggestions)"
      ∧ votesAt 0 = "reset" ∧ votesAt (-10) = "rejected"
      ∧ (∀ v : Int, v ≠ 10 → v ≠ 5 → v ≠ 0 → v ≠ -10 → votesAt v = "")
      ∧ (∀ (p u : PR) (r : Reviewers), p.Status = u.Status → p.IsDraft = u.IsDraft →
          p.Reviewers.length ≠ u.Reviewers.length →
          firstNewReviewer p.Reviewers u.Reviewers = some r →
          r.Vote ≠ 10 → r.Vote ≠ 5 → r.Vote ≠ 0 → r.Vote ≠ -10 →
          comparePRs p u
            = some ("reviewer", "*" ++ r.DisplayName ++ "* has *" ++ "" ++ "* this PR", true))
      ∧ (∀ (p u : PR) (i : Nat) (a b : Reviewers), p.Status = u.Status →
          p.IsDraft = u.IsDraft → p.Reviewers.length = u.Reviewers.length →
          p.Reviewers[i]? = some a → u.Reviewers[i]? = some b → a.Vote ≠ b.Vote →
          (∀ (j : Nat), j < i → ∀ (a' b' : Reviewers),
            p.Reviewers[j]? = some a' → u.Reviewers[j]? = some b' → a'.Vote = b'.Vote) →
          b.Vote ≠ 10 → b.Vote ≠ 5 → b.Vote ≠ 0 → b.Vote ≠ -10 →
          comparePRs p u
            = some ("reviewer",
                (if a.IsRequired = false then
                  "*" ++ b.DisplayName ++ "* has changed their review from *"
                    ++ votesAt a.Vote ++ "* to *" ++ "" ++ "*"
                else
                  "A required reviewer - *" ++ b.DisplayName ++ "* has *" ++ ""
                    ++ "* your PR "),
                true)) := by
  have hother : ∀ v : Int, v ≠ 10 → v ≠ 5 → v ≠ 0 → v ≠ -10 → votesAt v = "" := by
    intro v h1 h2 h3 h4
    have e1 : (v == 10) = false := beq_false_of_ne h1
    have e2 : (v == 5) = false := beq_false_of_ne h2
    have e3 : (v == 0) = false := beq_false_of_ne h3
    have e4 : (v == -10) = false := beq_false_of_ne h4
    simp only [votesAt, votes, List.lookup, e1, e2, e3, e4, Option.getD_none]
  refine ⟨by decide, by decide, by decide, by decide, hother, ?_, ?_⟩
  · intro p u r hs hd hl hf h1 h2 h3 h4
    simp [comparePRs, hs, hd, hl, hf, hother r.Vote h1 h2 h3 h4]
  · intro p u i a b hs hd hl ha hb hne hlt h1 h2 h3 h4
    have hc : comparePRs p u = voteLoop u.Reviewers 0 p.Reviewers := by
      simp [comparePRs, hs, hd, hl]
    rw [hc, ← hother b.Vote h1 h2 h3 h4]
    apply voteLoop_first_mismatch u.Reviewers p.Reviewers 0 i a b ha
    · simpa using hb
    · exact hne
    · intro j hj a' b' ha' hb'
      exact hlt j hj a' b' ha' (by simpa using hb')

theorem votesAt_total_witness :
    votesAt 3 = ""
      ∧ comparePRs noReviewers oddVote
        = some ("reviewer", "*" ++ "Ann" ++ "* has *" ++ "" ++ "* this PR", true) :=
  ⟨votesAt_total.2.2.2.2.1 3 (by decide) (by decide) (by decide) (by decide),
    votesAt_total.2.2.2.2.2.1 noReviewers oddVote (mkReviewer 3 "Ann" "ann@x" false)
      rfl rfl (by decide) rfl (by decide) (by decide) (by decide) (by decide)⟩

/-- C3, evaluated on the code: status and draft flag are equal, the reviewer
counts differ and every incoming unique name occurs among the previous ones,
yet `comparePRs` goes on to the positional loop and reports a vote change. -/
theorem comparePRs_count_changed_falls_through :
    annBobReset.Status = annApproved.Status ∧ annBobReset.IsDraft = annApproved.IsDraft
      ∧ annBobReset.Reviewers.length ≠ annApproved.Reviewers.length
      ∧ (∀ r ∈ annApproved.Reviewers, ∃ q ∈ annBobReset.Reviewers, q.UniqueName = r.UniqueName)
      ∧ comparePRs annBobReset annApproved
        = some ("reviewer", "*Ann* has changed their review from *reset* to *approved*", true) := by
  decide

/-- C10, evaluated on the code: with two previous reviewers and one incoming
reviewer that is among them with an unchanged vote, the positional loop reads
`updatedPr.Reviewers[1]`, which is out of range: `comparePRs` panics. -/
theorem comparePRs_index_out_of_range :
    annBobReset.Status = annReset.Status ∧ annBobReset.IsDraft = annReset.IsDraft
      ∧ comparePRs annBobReset annReset = none := by
  decide

/-! ## Event router: lemmas -/

theorem created_storage_shape (configuration : AutomaticPrMessages) (slackClient : SlackClient)
    (storage : PRStorage) (r : Request) :
    (handleAzureDevopsWebhookCreated configuration slackClient storage r).storage = storage
      ∨ ∃ pr, (handleAzureDevopsWebhookCreated configuration slackClient storage r).storage
            = storage.Add pr
          ∧ (pr.SentFirstMessage = false → pr.SlackMessageTS = "") := by
  simp only [handleAzureDevopsWebhookCreated]
  repeat' split
  all_goals first
    | exact Or.inl rfl
    | exact Or.inr ⟨_, rfl, fun _ => rfl⟩
    | exact Or.inr ⟨_, rfl, fun h => absurd h (by simp)⟩

theorem updates_storage_shape (slackClient : SlackClient) (storage : PRStorage) (r : Request) :
    (handleAzureDevopsWebhookUpdates slackClient storage r).storage = storage
      ∨ (∃ k pr ts, storage.GetByID k = some pr
          ∧ (handleAzureDevopsWebhookUpdates slackClient storage r).storage
            = storage.Add { pr with SlackMessageTS := ts, SentFirstMessage := true })
      ∨ (∃ k pr st dr rv, storage.GetByID k = some pr
          ∧ (handleAzureDevopsWebhookUpdates slackClient storage r).storage
            = storage.Add { pr with Status := st, IsDraft := dr, Reviewers := rv })
      ∨ (∃ id, (handleAzureDevopsWebhookUpdates slackClient storage r).storage
            = storage.Remove id) := by
  simp only [handleAzureDevopsWebhookUpdates]
  repeat' split
  all_goals first
    | exact Or.inl rfl
    | exact Or.inr (Or.inl ⟨_, _, _, ‹_›, rfl⟩)
    | exact Or.inr (Or.inr (Or.inl ⟨_, _, _, _, _, ‹_›, rfl⟩))
    | exact Or.inr (Or.inr (Or.inr ⟨_, rfl⟩))

theorem rootHandleInv_Add (s : PRStorage) (pr : PR) (hs : RootHandleInv s)
    (hpr : pr.SentFirstMessage = false → pr.SlackMessageTS = "") :
    RootHandleInv (s.Add pr) := by
  intro k q hq
  simp only [PRStorage.GetByID, PRStorage.Add] at hq
  split at hq
  · injection hq with hq
    subst hq
    exact hpr
  · exact hs k q hq

theorem rootHandleInv_Remove (s : PRStorage) (id : Int) (hs : RootHandleInv s) :
    RootHandleInv (s.Remove id) := by
  intro k q hq
  simp only [PRStorage.GetByID, PRStorage.Remove] at hq
  split at hq
  · simp at hq
  · exact hs k q hq

theorem rootHandleInv_created (configuration : AutomaticPrMessages) (slackClient : SlackClient)
    (storage : PRStorage) (r : Request) (hs : RootHandleInv storage) :
    RootHandleInv (handleAzureDevopsWebhookCreated configuration slackClient storage r).storage := by
  rcases created_storage_shape configuration slackClient storage r with h | ⟨pr, h, hpr⟩
  · rw [h]; exact hs
  · rw [h]; exact rootHandleInv_Add storage pr hs hpr

theorem rootHandleInv_updates (slackClient : SlackClient) (storage : PRStorage) (r : Request)
    (hs : RootHandleInv storage) :
    RootHandleInv (handleAzureDevopsWebhookUpdates slackClient storage r).storage := by
  rcases updates_storage_shape slackClient storage r with
    h | ⟨k, pr, ts, hget, h⟩ | ⟨k, pr, st, dr, rv, hget, h⟩ | ⟨id, h⟩
  · rw [h]; exact hs
  · rw [h]
    exact rootHandleInv_Add storage _ hs (fun hf => absurd hf (by simp))
  · rw [h]
    exact rootHandleInv_Add storage _ hs (fun hf => hs k pr hget hf)
  · rw [h]; exact rootHandleInv_Remove storage id hs

theorem keyedByID_Add (s : PRStorage) (pr : PR) (hs : KeyedByID s) : KeyedByID (s.Add pr) := by
  intro k q hq
  simp only [PRStorage.GetByID, PRStorage.Add] at hq
  split at hq
  · injection hq with hq
    subst hq
    rename_i hk
    exact hk.symm
  · exact hs k q hq

theorem keyedByID_Remove (s : PRStorage) (id : Int) (hs : KeyedByID s) :
    KeyedByID (s.Remove id) := by
  intro k q hq
  simp only [PRStorage.GetByID, PRStorage.Remove] at hq
  split at hq
  · simp at hq
  · exact hs k q hq

theorem keyedByID_of_reachable (configuration : AutomaticPrMessages) (storage : PRStorage)
    (h : Reachable configuration storage) : KeyedByID storage := by
  induction h with
  | init => intro k q hq; simp [PRStorage.GetByID, PRStorage.empty] at hq
  | created slackClient storage r _ ih =>
    rcases created_storage_shape configuration slackClient storage r with h | ⟨pr, h, _⟩
    · rw [h]; exact ih
    · rw [h]; exact keyedByID_Add storage pr ih
  | updates slackClient storage r _ ih =>
    rcases updates_storage_shape slackClient storage r with
      h | ⟨k, pr, ts, hget, h⟩ | ⟨k, pr, st, dr, rv, hget, h⟩ | ⟨id, h⟩
    · rw [h]; exact ih
    · rw [h]; exact keyedByID_Add storage _ ih
    · rw [h]; exact keyedByID_Add storage _ ih
    · rw [h]; exact keyedByID_Remove storage id ih

theorem deleteThreadMessagesFrom_ok (slackClient : SlackClient) (channelID : String) :
    ∀ (messages : List Message) (k : Nat),
      (∀ (j : Nat) (m : Message), messages[j]? = some m →
        slackClient.DeleteMessage (k + j) channelID m.Timestamp = true) →
      (deleteThreadMessagesFrom slackClient channelID k messages).2 = true := by
  intro messages
  induction messages with
  | nil => intro k _; rfl
  | cons msg rest ih =>
    intro k h
    have h0 : slackClient.DeleteMessage k channelID msg.Timestamp = true := h 0 msg (by simp)
    simp only [deleteThreadMessagesFrom, h0, if_true]
    apply ih (k + 1)
    intro j m hm
    have := h (j + 1) m (by simpa using hm)
    rw [← this]; congr 1; omega

theorem updates_untracked (slackClient : SlackClient) (storage : PRStorage) (r : Request)
    (data : WebhookData) (hbody : r.Body = some data)
    (hnone : storage.GetByID data.Resource.PullRequestID = none) :
    (handleAzureDevopsWebhookUpdates slackClient storage r).calls = []
      ∧ (handleAzureDevopsWebhookUpdates slackClient storage r).storage = storage := by
  simp only [handleAzureDevopsWebhookUpdates, hbody, hnone]
  constructor <;> (repeat' split) <;> rfl

/-- After an update that went through the reply branch without reaching the
terminal status, the identical update makes no client call: the stored entry
carries the status, draft flag and reviewers of the update. -/
theorem updates_repeat_silent_after_reply (slackClient slackClient' : SlackClient)
    (storage : PRStorage) (r : Request) (data : WebhookData) (pr : PR)
    (hmethod : r.Method = "POST") (hbody : r.Body = some data)
    (hevent : data.EventType = "git.pullrequest.updated")
    (htracked : storage.GetByID data.Resource.PullRequestID = some pr)
    (hkey : pr.ID = data.Resource.PullRequestID)
    (item info : String)
    (hcmp : comparePRs pr
      { ID := 0, Status := data.Resource.Status, IsDraft := data.Resource.IsDraft,
        Reviewers := data.Resource.Reviewers, SlackMessageTS := "", SlackChannel := "",
        SentFirstMessage := false } = some (item, info, true))
    (hreply : ¬ (item = "draft" ∧ pr.SentFirstMessage = false))
    (ts : String)
    (hsend : slackClient.PostMessage pr.SlackChannel info pr.SlackMessageTS = some ts)
    (hlive : data.Resource.Status ≠ "completed") :
    (handleAzureDevopsWebhookUpdates slackClient storage r).storage.GetByID
        data.Resource.PullRequestID
        = some { pr with Status := data.Resource.Status, IsDraft := data.Resource.IsDraft,
                         Reviewers := data.Resource.Reviewers }
      ∧ (handleAzureDevopsWebhookUpdates slackClient'
          (handleAzureDevopsWebhookUpdates slackClient storage r).storage r).calls = [] := by
  have hout : (handleAzureDevopsWebhookUpdates slackClient storage r).storage
      = storage.Add { pr with Status := data.Resource.Status, IsDraft := data.Resource.IsDraft,
                              Reviewers := data.Resource.Reviewers } := by
    simp only [handleAzureDevopsWebhookUpdates, hmethod, hbody, hevent, htracked, hcmp, hreply,
      sendSlackMessage, hsend, hlive, ne_eq, not_true_eq_false, if_false, Bool.true_eq_false]
  have hget : (storage.Add
      { pr with Status := data.Resource.Status, IsDraft := data.Resource.IsDraft,
                Reviewers := data.Resource.Reviewers }).GetByID data.Resource.PullRequestID
      = some { pr with Status := data.Resource.Status, IsDraft := data.Resource.IsDraft,
                       Reviewers := data.Resource.Reviewers } := by
    simp [PRStorage.GetByID, PRStorage.Add, hkey]
  rw [hout]
  refine ⟨hget, ?_⟩
  have hsame := comparePRs_same_fields
    { pr with Status := data.Resource.Status, IsDraft := data.Resource.IsDraft,
              Reviewers := data.Resource.Reviewers }
    { ID := 0, Status := data.Resource.Status, IsDraft := data.Resource.IsDraft,
      Reviewers := data.Resource.Reviewers, SlackMessageTS := "", SlackChannel := "",
      SentFirstMessage := false } rfl rfl rfl
  simp only [handleAzureDevopsWebhookUpdates, hmethod, hbody, hevent, hget, hsame,
    ne_eq, not_true_eq_false, if_false, if_true]

/-! ## Event router: claims -/

/-- C9: the predicate "an entry with `SentFirstMessage = false` has the empty
root handle `SlackMessageTS`" holds in the empty store, is preserved by every
run of the create handler and of the update handler, for all requests and all
answers of the chat client, and so holds in every reachable store. -/
theorem rootHandleInv_invariant :
    RootHandleInv PRStorage.empty
      ∧ (∀ (configuration : AutomaticPrMessages) (slackClient : SlackClient)
          (storage : PRStorage) (r : Request), RootHandleInv storage →
          RootHandleInv
            (handleAzureDevopsWebhookCreated configuration slackClient storage r).storage)
      ∧ (∀ (slackClient : SlackClient) (storage : PRStorage) (r : Request),
          RootHandleInv storage →
          RootHandleInv (handleAzureDevopsWebhookUpdates slackClient storage r).storage)
      ∧ (∀ (configuration : AutomaticPrMessages) (storage : PRStorage),
          Reachable configuration storage → RootHandleInv storage) := by
  have hempty : RootHandleInv PRStorage.empty := by
    intro k q hq
    simp [PRStorage.GetByID, PRStorage.empty] at hq
  refine ⟨hempty, rootHandleInv_created, rootHandleInv_updates, ?_⟩
  intro configuration storage h
  induction h with
  | init => exact hempty
  | created slackClient storage r _ ih =>
    exact rootHandleInv_created configuration slackClient storage r ih
  | updates slackClient storage r _ ih => exact rootHandleInv_updates slackClient storage r ih

theorem rootHandleInv_invariant_witness :
    (draftTracked.GetByID 7).map (fun pr => (pr.SentFirstMessage, pr.SlackMessageTS))
        = some (false, "")
      ∧ RootHandleInv draftTracked
      ∧ RootHandleInv (handleAzureDevopsWebhookUpdates okClient draftTracked readyUpdate).storage :=
  ⟨by decide,
    rootHandleInv_invariant.2.1 alphaConfig okClient PRStorage.empty
      (mkRequest "git.pullrequest.created" 7 "active" true []) rootHandleInv_invariant.1,
    rootHandleInv_invariant.2.2.1 okClient draftTracked readyUpdate
      (rootHandleInv_invariant.2.1 alphaConfig okClient PRStorage.empty
        (mkRequest "git.pullrequest.created" 7 "active" true []) rootHandleInv_invariant.1)⟩

/-- C5: in a reachable store where `n` is tracked with a stored status other
than "completed", an update-notification for `n` with status "completed",
whose message send, reply listing and reply deletions all succeed, leaves `n`
absent from the store and every other key as it was; any update-notification
for `n` processed on the resulting store makes no client call (so sends no
message) and leaves the store as it is. -/
theorem terminal_cleanup (configuration : AutomaticPrMessages) (storage : PRStorage)
    (hreach : Reachable configuration storage) (n : Int) (pr : PR)
    (htracked : storage.GetByID n = some pr) (hstatus : pr.Status ≠ "completed")
    (slackClient : SlackClient) (r : Request) (data : WebhookData)
    (hmethod : r.Method = "POST") (hbody : r.Body = some data)
    (hevent : data.EventType = "git.pullrequest.updated")
    (hid : data.Resource.PullRequestID = n) (hcompleted : data.Resource.Status = "completed")
    (ts : String)
    (hsend : slackClient.PostMessage pr.SlackChannel "Status has changed to: *completed*"
      pr.SlackMessageTS = some ts)
    (messages : List Message)
    (hlist : slackClient.GetConversationReplies pr.SlackChannel pr.SlackMessageTS = some messages)
    (hdelete : ∀ (k : Nat) (m : Message), messages[k]? = some m →
      slackClient.DeleteMessage k pr.SlackChannel m.Timestamp = true) :
    (handleAzureDevopsWebhookUpdates slackClient storage r).storage.GetByID n = none
      ∧ (∀ k, k ≠ n →
          (handleAzureDevopsWebhookUpdates slackClient storage r).storage.GetByID k
            = storage.GetByID k)
      ∧ (∀ (slackClient' : SlackClient) (r' : Request) (data' : WebhookData),
          r'.Body = some data' → data'.Resource.PullRequestID = n →
          (handleAzureDevopsWebhookUpdates slackClient'
              (handleAzureDevopsWebhookUpdates slackClient storage r).storage r').calls = []
            ∧ (handleAzureDevopsWebhookUpdates slackClient'
              (handleAzureDevopsWebhookUpdates slackClient storage r).storage r').storage
              = (handleAzureDevopsWebhookUpdates slackClient storage r).storage) := by
  have hkey : pr.ID = n := keyedByID_of_reachable configuration storage hreach n pr htracked
  have hdel : (deleteThreadMessages slackClient pr.SlackChannel messages).2 = true :=
    deleteThreadMessagesFrom_ok slackClient pr.SlackChannel messages 0
      (by intro j m hm; rw [Nat.zero_add]; exact hdelete j m hm)
  have hout : (handleAzureDevopsWebhookUpdates slackClient storage r).storage
      = storage.Remove n := by
    obtain ⟨et, ⟨repo, id, st, title, cb, dr, rv, url⟩⟩ := data
    simp only at hevent hid hcompleted
    subst hid hcompleted hevent
    have hmsg : "Status has changed to: *" ++ "completed" ++ "*"
        = "Status has changed to: *completed*" := by decide
    have hkind : ("status" = "draft") = False := eq_false (by decide)
    simp only [handleAzureDevopsWebhookUpdates, hmethod, hbody, htracked, comparePRs, hstatus,
      hmsg, hkind, sendSlackMessage, hsend, getThreadMessages, hlist, hdel, hkey,
      ne_eq, not_true_eq_false, not_false_eq_true, if_true, if_false, Bool.true_eq_false,
      false_and, reduceCtorEq]
  refine ⟨?_, ?_, ?_⟩
  · rw [hout]; simp [PRStorage.GetByID, PRStorage.Remove]
  · intro k hk
    rw [hout]; simp [PRStorage.GetByID, PRStorage.Remove, hk]
  · intro slackClient' r' data' hb' hid'
    apply updates_untracked slackClient' _ r' data' hb'
    rw [hid', hout]; simp [PRStorage.GetByID, PRStorage.Remove]

theorem terminal_cleanup_witness :
    (activeTracked.GetByID 7).map (fun pr => pr.Status) = some "active"
      ∧ (handleAzureDevopsWebhookUpdates okClient activeTracked completedUpdate).storage.GetByID 7
        = none :=
  ⟨by decide,
    (terminal_cleanup alphaConfig activeTracked
      (Reachable.created okClient PRStorage.empty
        (mkRequest "git.pullrequest.created" 7 "active" false []) Reachable.init)
      7 ⟨7, false, "active", [], "1700000000.000100", "C1", true⟩ (by decide) (by decide)
      okClient completedUpdate _
      rfl rfl rfl rfl rfl "1700000000.000100" rfl [⟨"1700000000.000200"⟩] rfl
      (by intro k m _; rfl)).1⟩

/-- C1, evaluated on the code: pull request 7 is tracked as a draft without a
root message; the update that marks it ready is processed with every client
call succeeding and leaves 7 tracked, with the stored draft flag still `true`;
the identical update processed again is classified "draft" with
`changed = true` and posts a reply. -/
theorem promote_repeat_sends_again :
    (draftTracked.GetByID 7).map (fun pr => (pr.IsDraft, pr.SentFirstMessage))
        = some (true, false)
      ∧ (handleAzureDevopsWebhookUpdates okClient draftTracked readyUpdate).exit = Exit.returned
      ∧ ((handleAzureDevopsWebhookUpdates okClient draftTracked readyUpdate).storage.GetByID 7).map
          (fun pr => (pr.IsDraft, pr.SentFirstMessage)) = some (true, true)
      ∧ ((handleAzureDevopsWebhookUpdates okClient draftTracked readyUpdate).storage.GetByID 7).bind
          (fun pr => comparePRs pr (mkSnapshot "active" false []))
          = some ("draft", "PR has been unmarked as a draft", true)
      ∧ (handleAzureDevopsWebhookUpdates okClient
          (handleAzureDevopsWebhookUpdates okClient draftTracked readyUpdate).storage
          readyUpdate).calls
          = [SinkCall.postMessage "C1" "PR has been unmarked as a draft" "1700000000.000100"] := by
  decide

/-- C4, evaluated on the code: from the empty store, the create-notification
of the draft pull request 7 (project mapped to channel "C1") sends nothing,
and the following update-notification, still a draft but with another status,
posts the status message, with an empty thread handle. -/
theorem draft_status_update_sends :
    PRStorage.empty.GetByID 7 = none
      ∧ (handleAzureDevopsWebhookCreated alphaConfig okClient PRStorage.empty
          (mkRequest "git.pullrequest.created" 7 "active" true [])).calls = []
      ∧ (handleAzureDevopsWebhookUpdates okClient draftTracked draftAbandonedUpdate).calls
          = [SinkCall.postMessage "C1" "Status has changed to: *abandoned*" ""] := by
  decide

/-- C7, evaluated on the code: when the lookup by email finds no user, the
root message of the promote path starts with an empty mention, whereas the
root message of the create path carries the display name of the creator. -/
theorem promote_without_user_has_empty_mention :
    (handleAzureDevopsWebhookUpdates noUserClient draftTracked readyUpdate).sentMessages
        = ["<@> has moved their PR from draft, and is ready to be reviewed - <https://dev.example/Alpha/_git/repo/pullrequest/7|*Fix login*> for *repo*\x27"]
      ∧ (handleAzureDevopsWebhookCreated alphaConfig noUserClient PRStorage.empty
          (mkRequest "git.pullrequest.created" 7 "active" false [])).sentMessages
        = ["<@Ann Lee> has created a new PR - <https://dev.example/Alpha/_git/repo/pullrequest/7|*Fix login*> for *repo*\x27"] := by
  decide
